import Mathlib

/-!
Shallow embedding of the simulation core of the `Alarm_Shooter` repository
(`src/game/game.rs` with the entity structs of `src/game/player.rs`,
`src/game/bullet.rs`, `src/game/enemy.rs`).

Coordinates, speeds and timestamps are modelled as rationals (`ℚ`);
`score` and `lives` are `u32` in the source and are modelled as `Nat`
(`u32::saturating_sub` becomes truncated `Nat` subtraction).
`js_sys::Math::random()` values are passed in as explicit parameters.
Platform glue (canvas context, audio elements, images, DOM updates) carries
no simulation state and is omitted from the records.
`Vec::remove`, which panics when the index is out of bounds, is modelled as
an `Option`-returning removal; a `none` result marks the panic.
-/

structure Player where
  x : ℚ
  y : ℚ
  width : ℚ
  height : ℚ
  speed : ℚ
  deriving Repr, DecidableEq

structure Bullet where
  x : ℚ
  y : ℚ
  radius : ℚ
  speed : ℚ
  deriving Repr, DecidableEq

structure Enemy where
  x : ℚ
  y : ℚ
  width : ℚ
  height : ℚ
  speed : ℚ
  deriving Repr, DecidableEq

inductive GameState where
  | Playing
  | GameOver
  deriving Repr, DecidableEq

structure Game where
  player : Player
  bullets : List Bullet
  enemies : List Enemy
  last_enemy_spawn : ℚ
  enemy_spawn_interval : ℚ
  score : Nat
  lives : Nat
  state : GameState
  keys_pressed : List String
  last_frame_time : ℚ
  deriving Repr, DecidableEq

/-- `Game::new` (game.rs lines 29-62): the freshly constructed state. -/
def Game.new : Game :=
  { player := { x := 300, y := 550, width := 50, height := 50, speed := 5 }
    bullets := []
    enemies := []
    last_enemy_spawn := 0
    enemy_spawn_interval := 2000
    score := 0
    lives := 3
    state := GameState.Playing
    keys_pressed := []
    last_frame_time := 0 }

/-- `Game::fire_bullet` (game.rs lines 81-93); the audio call is glue. -/
def Game.fire_bullet (g : Game) : Game :=
  let bullet : Bullet :=
    { x := g.player.x + g.player.width / 2 - 5
      y := g.player.y
      radius := 5
      speed := 7 }
  { g with bullets := g.bullets ++ [bullet] }

/-- `Game::key_down` (game.rs lines 64-73): push the key if absent, then
fire when the key is the space bar. -/
def Game.key_down (g : Game) (key : String) : Game :=
  let g1 :=
    if g.keys_pressed.contains key then g
    else { g with keys_pressed := g.keys_pressed ++ [key] }
  if key = " " ∨ key = "Space" then g1.fire_bullet else g1

/-- `Game::key_up` (game.rs lines 75-79): `iter().position` + `remove`
deletes the first occurrence, which is `List.erase`. -/
def Game.key_up (g : Game) (key : String) : Game :=
  { g with keys_pressed := g.keys_pressed.erase key }

/-- `Game::spawn_enemy` (game.rs lines 95-111), with the two
`random()` draws passed in as `r1` (position) and `r2` (speed). -/
def Game.spawn_enemy (g : Game) (r1 r2 : ℚ) : Game :=
  let enemy_width : ℚ := 50
  let enemy_height : ℚ := 50
  let x := r1 * (800 - enemy_width)
  let y : ℚ := 0
  let speed := 2 + r2 * 3
  let enemy : Enemy :=
    { x := x, y := y, width := enemy_width, height := enemy_height, speed := speed }
  { g with enemies := g.enemies ++ [enemy] }

/-- `Game::update_enemies` (game.rs lines 113-120): move each enemy down by
its speed, then `retain(|enemy| enemy.y <= 600.0)`. -/
def Game.update_enemies (g : Game) : Game :=
  let moved := g.enemies.map fun e => { e with y := e.y + e.speed }
  { g with enemies := moved.filter fun e => e.y ≤ 600 }

/-- The bullet↔enemy overlap test of game.rs lines 130-137: the bullet is
widened to a box of side `2 * radius`. -/
def bulletHitsEnemy (b : Bullet) (e : Enemy) : Bool :=
  let bullet_width := b.radius * 2
  let bullet_height := b.radius * 2
  b.x < e.x + e.width && b.x + bullet_width > e.x &&
    b.y < e.y + e.height && b.y + bullet_height > e.y

/-- The player↔enemy overlap test of game.rs lines 151-154. -/
def playerHitsEnemy (p : Player) (e : Enemy) : Bool :=
  p.x < e.x + e.width && p.x + p.width > e.x &&
    p.y < e.y + e.height && p.y + p.height > e.y

/-- The index pairs pushed by the double loop of game.rs lines 127-146:
for each bullet index `b_idx` in order, each enemy index `e_idx` whose
enemy overlaps that bullet. -/
def collisionPairs (bullets : List Bullet) (enemies : List Enemy) : List (Nat × Nat) :=
  bullets.enum.flatMap fun bi =>
    enemies.enum.filterMap fun ei =>
      if bulletHitsEnemy bi.2 ei.2 then some (bi.1, ei.1) else none

/-- The `enemies_to_remove_on_collision` indices of game.rs lines 149-161. -/
def playerCollisionIdxs (p : Player) (enemies : List Enemy) : List Nat :=
  enemies.enum.filterMap fun ei =>
    if playerHitsEnemy p ei.2 then some ei.1 else none

/-- The running `lives = lives.saturating_sub(1)` of the player sweep
(game.rs line 157), folded over the enemy list. -/
def livesAfterPlayerSweep (lives : Nat) (p : Player) (enemies : List Enemy) : Nat :=
  enemies.foldl (fun acc e => if playerHitsEnemy p e then acc - 1 else acc) lives

/-- Rust `Vec::dedup`: remove consecutive duplicates. -/
def dedupConsec : List Nat → List Nat
  | [] => []
  | [a] => [a]
  | a :: b :: rest =>
      if a = b then dedupConsec (b :: rest) else a :: dedupConsec (b :: rest)

/-- Ascending insertion used to model `sort_unstable()`. -/
def insertSorted (a : Nat) : List Nat → List Nat
  | [] => [a]
  | b :: t => if a ≤ b then a :: b :: t else b :: insertSorted a t

/-- `sort_unstable()` modelled as insertion sort: the source only relies on
the output being ascending, and index lists carry no equal-element order. -/
def sortNat (l : List Nat) : List Nat :=
  l.foldr insertSorted []

/-- `sort_unstable()` followed by `dedup()` (game.rs lines 164-169). -/
def sortDedup (l : List Nat) : List Nat :=
  dedupConsec (sortNat l)

/-- `Vec::remove(i)`: `none` models the out-of-bounds panic. -/
def vecRemove (l : List α) (i : Nat) : Option (List α) :=
  if i < l.length then some (l.eraseIdx i) else none

/-- The removal loops of game.rs lines 172-181: the index list is walked in
reverse (`iter().rev()`), each step calling `Vec::remove`. -/
def removeIndicesRev (l : List α) (idxs : List Nat) : Option (List α) :=
  idxs.reverse.foldlM vecRemove l

/-- `Game::check_collisions` (game.rs lines 122-187): both sweeps, the
per-pair score increment, the per-overlap life decrement, sort+dedup of the
three index lists, the three reverse removal loops, and the game-over
check. -/
def Game.check_collisions (g : Game) : Option Game :=
  let pairs := collisionPairs g.bullets g.enemies
  let score2 := g.score + pairs.length
  let lives2 := livesAfterPlayerSweep g.lives g.player g.enemies
  let bullets_to_remove := sortDedup (pairs.map Prod.fst)
  let enemies_to_remove := sortDedup (pairs.map Prod.snd)
  let enemies_to_remove_on_collision := sortDedup (playerCollisionIdxs g.player g.enemies)
  match removeIndicesRev g.bullets bullets_to_remove with
  | none => none
  | some bullets2 =>
    match removeIndicesRev g.enemies enemies_to_remove with
    | none => none
    | some enemies2 =>
      match removeIndicesRev enemies2 enemies_to_remove_on_collision with
      | none => none
      | some enemies3 =>
        some { g with
                bullets := bullets2
                enemies := enemies3
                score := score2
                lives := lives2
                state := if lives2 = 0 then GameState.GameOver else g.state }

/-- Seeding of `last_enemy_spawn` on the first processed frame
(game.rs lines 213-215). -/
def Game.seed_spawn_timer (g : Game) (now : ℚ) : Game :=
  if g.last_enemy_spawn = 0 then { g with last_enemy_spawn := now } else g

/-- The spawn check of game.rs lines 222-225. -/
def Game.spawn_step (g : Game) (now r1 r2 : ℚ) : Game :=
  if now - g.last_enemy_spawn > g.enemy_spawn_interval then
    { g.spawn_enemy r1 r2 with last_enemy_spawn := now }
  else g

/-- The key-driven player movement with clamping (game.rs lines 227-262). -/
def Game.move_player (g : Game) : Game :=
  let p := g.player
  let x1 :=
    if g.keys_pressed.contains "ArrowLeft" || g.keys_pressed.contains "a" then
      let x := p.x - p.speed
      if x < 0 then 0 else x
    else p.x
  let x2 :=
    if g.keys_pressed.contains "ArrowRight" || g.keys_pressed.contains "d" then
      let x := x1 + p.speed
      if x + p.width > 800 then 800 - p.width else x
    else x1
  let y1 :=
    if g.keys_pressed.contains "ArrowUp" || g.keys_pressed.contains "w" then
      let y := p.y - p.speed
      if y < 0 then 0 else y
    else p.y
  let y2 :=
    if g.keys_pressed.contains "ArrowDown" || g.keys_pressed.contains "s" then
      let y := y1 + p.speed
      if y + p.height > 600 then 600 - p.height else y
    else y1
  { g with player := { p with x := x2, y := y2 } }

/-- The bullet motion and culling of game.rs lines 264-270: each bullet
moves up by its speed, then `retain(|bullet| bullet.y >= 0.0)`. -/
def Game.update_bullets (g : Game) : Game :=
  let moved := g.bullets.map fun b => { b with y := b.y - b.speed }
  { g with bullets := moved.filter fun b => 0 ≤ b.y }

/-- `Game::render_frame` (game.rs lines 211-328), simulation part: seed the
spawn timer, record the frame time, spawn, move the player, move and cull
bullets, move and cull enemies, resolve collisions.  Drawing and the HUD
update are glue.  `delta_time` is computed in the source but its only
consumer (`update_enemies`) ignores it. -/
def Game.render_frame (g0 : Game) (current_time r1 r2 : ℚ) : Option Game :=
  let g1 := g0.seed_spawn_timer current_time
  let g2 := { g1 with last_frame_time := current_time }
  let g3 := g2.spawn_step current_time r1 r2
  let g4 := g3.move_player
  let g5 := g4.update_bullets
  let g6 := g5.update_enemies
  g6.check_collisions

/-- One animation callback of `Game::start` (game.rs lines 189-209): the
closure runs `render_frame` only while the state is `Playing`. -/
def Game.step (g : Game) (timestamp r1 r2 : ℚ) : Option Game :=
  if g.state = GameState.Playing then g.render_frame timestamp r1 r2 else some g

/-- `Game::reset` (game.rs lines 370-393); the DOM banner update is glue.
Note the source does not touch `last_frame_time`. -/
def Game.reset (g : Game) : Game :=
  { g with
      player := { g.player with x := 300, y := 550 }
      bullets := []
      enemies := []
      last_enemy_spawn := 0
      score := 0
      lives := 3
      state := GameState.Playing
      keys_pressed := [] }

/-
Batteries marks the `Rat` arithmetic operations `@[irreducible]`, which
blocks kernel evaluation of concrete states; the proofs below evaluate
concrete games with `decide`, so reducibility is restored here.
-/
set_option allowUnsafeReducibility true

attribute [local semireducible] Rat.add Rat.sub Rat.mul Rat.inv Rat.div Rat.ofScientific

/-- Two bullets overlapping the same single enemy. -/
def gC1 : Game :=
  { Game.new with
      bullets := [{ x := 110, y := 105, radius := 5, speed := 7 },
                  { x := 112, y := 105, radius := 5, speed := 7 }]
      enemies := [{ x := 100, y := 100, width := 50, height := 50, speed := 3 }] }

/-- Enemy 0 overlaps a bullet while enemy 1 overlaps the player. -/
def gC2 : Game :=
  { Game.new with
      bullets := [{ x := 120, y := 109, radius := 5, speed := 7 }]
      enemies := [{ x := 100, y := 100, width := 50, height := 50, speed := 3 },
                  { x := 310, y := 540, width := 50, height := 50, speed := 3 }] }

/-- A state whose frame timer has advanced past its initial value. -/
def gC3 : Game := { Game.new with last_frame_time := 5 }

/-- C1: the claim says a single destroyed enemy contributes exactly one
point even when several bullets overlap it.  In `gC1` two bullets overlap
the one enemy: the sweep destroys that one enemy (the enemy list empties)
yet the score rises from 0 to 2, because `score += 1` runs once per
overlapping pair before any deduplication. -/
theorem C1_counterexample :
    gC1.score = 0 ∧ gC1.enemies.length = 1 ∧
      gC1.check_collisions.map (fun g => (g.score, g.enemies.length)) = some (2, 0) := by
  decide

/-- C6: while the lifecycle state is `GameOver`, the animation callback of
`Game::start` does not run `render_frame`, so one step leaves the whole
state unchanged. -/
theorem C6_gameover_frozen (g : Game) (t r1 r2 : ℚ) (h : g.state = GameState.GameOver) :
    g.step t r1 r2 = some g := by
  simp [Game.step, h]

/-- A game-over state used to instantiate `C6_gameover_frozen`. -/
def gC6 : Game := { Game.new with state := GameState.GameOver, score := 7, lives := 0 }

/-- Witness for C6 at the concrete game-over state `gC6`. -/
theorem C6_witness : gC6.state = GameState.GameOver ∧ gC6.step 1000 0 0 = some gC6 :=
  ⟨rfl, C6_gameover_frozen gC6 1000 0 0 rfl⟩

/-- C3: the claim says `reset` returns all timers, the frame timer
included, to their initial values.  In `gC3` the frame timer holds 5, and
`reset` leaves it at 5 while the freshly constructed state holds 0. -/
theorem C3_counterexample :
    gC3.reset.last_frame_time = 5 ∧ Game.new.last_frame_time = 0 := by
  decide

/-- Whenever `check_collisions` completes, the non-entity fields of the
result are the ones computed during the sweeps: score rises by one per
overlapping (bullet, enemy) pair, lives fall by one per enemy overlapping
the player (truncated at 0), the state flips to `GameOver` exactly when the
new lives count is 0, and player, keys and timers are untouched. -/
theorem check_collisions_fields (g g' : Game) (h : g.check_collisions = some g') :
    g'.score = g.score + (collisionPairs g.bullets g.enemies).length ∧
    g'.lives = livesAfterPlayerSweep g.lives g.player g.enemies ∧
    g'.state = (if livesAfterPlayerSweep g.lives g.player g.enemies = 0 then
                  GameState.GameOver else g.state) ∧
    g'.player = g.player ∧ g'.keys_pressed = g.keys_pressed ∧
    g'.last_enemy_spawn = g.last_enemy_spawn ∧ g'.last_frame_time = g.last_frame_time := by
  simp only [Game.check_collisions] at h
  split at h
  · exact Option.noConfusion h
  · split at h
    · exact Option.noConfusion h
    · split at h
      · exact Option.noConfusion h
      · injection h with h'
        subst h'
        simp

/-- C1 (amended): every completed collision sweep raises `score` by the
number of overlapping (bullet, enemy) pairs — not by the number of distinct
destroyed enemies; only the removal index lists are deduplicated. -/
theorem C1_score_per_pair (g : Game) :
    g.check_collisions.map Game.score =
      g.check_collisions.map fun _ => g.score + (collisionPairs g.bullets g.enemies).length := by
  cases h : g.check_collisions with
  | none => rfl
  | some g' => simpa using (check_collisions_fields g g' h).1

/-- C2: in `gC2` the bullet sweep marks enemy index 0 and the player sweep
marks enemy index 1; the second removal batch runs against the enemy vector
already shrunk to length 1, so `Vec::remove(1)` hits its out-of-bounds
branch (a Rust panic, modelled as `none`). -/
theorem C2_out_of_bounds :
    gC2.enemies.length = 2 ∧
      sortDedup ((collisionPairs gC2.bullets gC2.enemies).map Prod.snd) = [0] ∧
      sortDedup (playerCollisionIdxs gC2.player gC2.enemies) = [1] ∧
      gC2.check_collisions = none := by
  decide

/-- The running saturated decrement of the player sweep equals a single
truncated subtraction of the number of overlapping enemies. -/
theorem livesAfterPlayerSweep_eq (p : Player) (es : List Enemy) (n : Nat) :
    livesAfterPlayerSweep n p es = n - (es.filter fun e => playerHitsEnemy p e).length := by
  induction es generalizing n with
  | nil => simp [livesAfterPlayerSweep]
  | cons e t ih =>
    by_cases h : playerHitsEnemy p e
    · simp [livesAfterPlayerSweep, List.foldl_cons, h] at ih ⊢
      rw [ih, Nat.sub_sub, Nat.add_comm]
    · simp [livesAfterPlayerSweep, List.foldl_cons, h] at ih ⊢
      rw [ih]

/-- C4: whenever a collision sweep completes, the new lives count is the
old one lowered by exactly one per enemy overlapping the player and
truncated at 0 (it is a `Nat`, hence never below 0), the count never
increases, and — starting from `Playing` — the state flips to `GameOver`
on that same tick exactly when the new count is 0. -/
theorem C4_lives (g g' : Game) (h : g.check_collisions = some g') :
    g'.lives = g.lives - (g.enemies.filter fun e => playerHitsEnemy g.player e).length ∧
    g'.lives ≤ g.lives ∧
    (g.state = GameState.Playing → (g'.state = GameState.GameOver ↔ g'.lives = 0)) := by
  obtain ⟨-, hlives, hstate, -⟩ := check_collisions_fields g g' h
  rw [livesAfterPlayerSweep_eq] at hlives
  refine ⟨hlives, by rw [hlives]; exact Nat.sub_le _ _, fun hplay => ?_⟩
  rw [hstate, hlives, livesAfterPlayerSweep_eq]
  split
  · simp_all
  · simp_all

/-- One enemy overlapping the player and none overlapping a bullet. -/
def gC4 : Game := { Game.new with enemies := [{ x := 310, y := 540, width := 50, height := 50, speed := 3 }] }

/-- The state `check_collisions` produces from `gC4`: the colliding enemy
is removed and one life is gone. -/
def gC4' : Game := { Game.new with enemies := [], lives := 2 }

/-- Witness for C4 at the concrete state `gC4`. -/
theorem C4_witness :
    gC4.check_collisions = some gC4' ∧
      (gC4'.lives = gC4.lives - (gC4.enemies.filter fun e => playerHitsEnemy gC4.player e).length ∧
       gC4'.lives ≤ gC4.lives ∧
       (gC4.state = GameState.Playing → (gC4'.state = GameState.GameOver ↔ gC4'.lives = 0))) :=
  ⟨by decide, C4_lives gC4 gC4' (by decide)⟩

/-- C3 (amended): on any state whose constant fields (player box, player
speed, spawn interval) still hold their construction values, `reset`
restores every simulation field — player position, bullets, enemies, spawn
timer, score, lives, lifecycle, held keys — to the freshly constructed
state, except that the frame timer `last_frame_time` keeps its pre-reset
value. -/
theorem C3_reset (g : Game)
    (hw : g.player.width = 50) (hh : g.player.height = 50) (hs : g.player.speed = 5)
    (hi : g.enemy_spawn_interval = 2000) :
    g.reset = { Game.new with last_frame_time := g.last_frame_time } := by
  obtain ⟨⟨px, py, pw, ph, ps⟩, bs, es, les, esi, sc, lv, st, kp, lft⟩ := g
  simp only [Game.reset, Game.new] at *
  subst hw hh hs hi
  rfl

/-- Witness for C3 at the concrete state `gC3`. -/
theorem C3_witness :
    gC3.reset = { Game.new with last_frame_time := gC3.last_frame_time } :=
  C3_reset gC3 rfl rfl rfl rfl

/-- One clamped axis step of `move_player`: subtract the speed when the
key test fires, clamp below at 0. -/
theorem step_toward_zero (c : Prop) [Decidable c] (x s B : ℚ)
    (hs : 0 ≤ s) (h0 : 0 ≤ x) (h1 : x ≤ B) :
    0 ≤ (if c then (if x - s < 0 then 0 else x - s) else x) ∧
      (if c then (if x - s < 0 then 0 else x - s) else x) ≤ B := by
  split_ifs <;> constructor <;> linarith

/-- One clamped axis step of `move_player`: add the speed when the key
test fires, clamp so the box's far edge stays within `total`. -/
theorem step_away_from_zero (c : Prop) [Decidable c] (x s w total : ℚ)
    (hs : 0 ≤ s) (hw : w ≤ total) (h0 : 0 ≤ x) (h1 : x ≤ total - w) :
    0 ≤ (if c then (if x + s + w > total then total - w else x + s) else x) ∧
      (if c then (if x + s + w > total then total - w else x + s) else x) ≤ total - w := by
  split_ifs <;> constructor <;> linarith

/-- C5: for any held-key set, if the player's bounding box starts inside
the 800×600 playfield (and the box and speed are admissible), it is still
inside after the movement step of `render_frame`. -/
theorem C5_clamp (g : Game)
    (hs : 0 ≤ g.player.speed) (hw : g.player.width ≤ 800) (hh : g.player.height ≤ 600)
    (hx0 : 0 ≤ g.player.x) (hx1 : g.player.x ≤ 800 - g.player.width)
    (hy0 : 0 ≤ g.player.y) (hy1 : g.player.y ≤ 600 - g.player.height) :
    0 ≤ g.move_player.player.x ∧ g.move_player.player.x ≤ 800 - g.player.width ∧
      0 ≤ g.move_player.player.y ∧ g.move_player.player.y ≤ 600 - g.player.height := by
  have hx2 := step_toward_zero
    ((g.keys_pressed.contains "ArrowLeft" || g.keys_pressed.contains "a") = true)
    g.player.x g.player.speed (800 - g.player.width) hs hx0 hx1
  have hx3 := step_away_from_zero
    ((g.keys_pressed.contains "ArrowRight" || g.keys_pressed.contains "d") = true)
    _ g.player.speed g.player.width 800 hs hw hx2.1 hx2.2
  have hy2 := step_toward_zero
    ((g.keys_pressed.contains "ArrowUp" || g.keys_pressed.contains "w") = true)
    g.player.y g.player.speed (600 - g.player.height) hs hy0 hy1
  have hy3 := step_away_from_zero
    ((g.keys_pressed.contains "ArrowDown" || g.keys_pressed.contains "s") = true)
    _ g.player.speed g.player.height 600 hs hh hy2.1 hy2.2
  exact ⟨hx3.1, hx3.2, hy3.1, hy3.2⟩

/-- All eight movement keys held at once. -/
def gC5 : Game :=
  { Game.new with
      keys_pressed := ["ArrowLeft", "a", "ArrowRight", "d", "ArrowUp", "w", "ArrowDown", "s"] }

/-- Witness for C5 at the concrete state `gC5`. -/
theorem C5_witness :
    (0 ≤ gC5.player.speed ∧ gC5.player.width ≤ 800 ∧ gC5.player.height ≤ 600 ∧
      0 ≤ gC5.player.x ∧ gC5.player.x ≤ 800 - gC5.player.width ∧
      0 ≤ gC5.player.y ∧ gC5.player.y ≤ 600 - gC5.player.height) ∧
    (0 ≤ gC5.move_player.player.x ∧ gC5.move_player.player.x ≤ 800 - gC5.player.width ∧
      0 ≤ gC5.move_player.player.y ∧ gC5.move_player.player.y ≤ 600 - gC5.player.height) :=
  ⟨⟨by decide, by decide, by decide, by decide, by decide, by decide, by decide⟩,
   C5_clamp gC5 (by decide) (by decide) (by decide) (by decide) (by decide) (by decide) (by decide)⟩

/-- C7: with the 2000ms interval, a tick that still has the zero-seeded
spawn timer only records its own timestamp and appends no enemy; any later
tick with `now − lastSpawnTime > 2000` appends exactly one enemy with
`y = 0`, `x = r1·(800−50)` and `speed = 2 + r2·3`, and stamps the timer;
and for `r2 ∈ [0,1)` that speed lies in `[2, 5)`. -/
theorem C7_spawn (g : Game) (t r1 r2 : ℚ) (hi : g.enemy_spawn_interval = 2000) :
    (g.last_enemy_spawn = 0 →
      (g.seed_spawn_timer t).spawn_step t r1 r2 = { g with last_enemy_spawn := t }) ∧
    (g.last_enemy_spawn ≠ 0 → 2000 < t - g.last_enemy_spawn →
      (g.seed_spawn_timer t).spawn_step t r1 r2 =
        { g with
            enemies := g.enemies ++
              [{ x := r1 * (800 - 50), y := 0, width := 50, height := 50, speed := 2 + r2 * 3 }]
            last_enemy_spawn := t }) ∧
    (0 ≤ r2 → r2 < 1 → 2 ≤ 2 + r2 * 3 ∧ 2 + r2 * 3 < 5) := by
  refine ⟨fun h0 => ?_, fun h0 hgt => ?_, fun h2a h2b => ?_⟩
  · rw [Game.seed_spawn_timer, if_pos h0, Game.spawn_step]
    rw [if_neg]
    simp [hi]
  · rw [Game.seed_spawn_timer, if_neg h0, Game.spawn_step, if_pos (by rw [hi]; exact hgt)]
    simp [Game.spawn_enemy]
  · constructor
    · have : 0 ≤ r2 * 3 := mul_nonneg h2a (by norm_num)
      linarith
    · have : r2 * 3 < 1 * 3 := by
        exact mul_lt_mul_of_pos_right h2b (by norm_num)
      linarith

/-- A state past its first tick whose spawn interval has elapsed. -/
def gC7 : Game := { Game.new with last_enemy_spawn := 10 }

/-- Witness for C7 at the concrete state `gC7` and tick time 2500. -/
theorem C7_witness :
    gC7.enemy_spawn_interval = 2000 ∧
    ((gC7.last_enemy_spawn = 0 →
      (gC7.seed_spawn_timer 2500).spawn_step 2500 (1/2) (1/2) = { gC7 with last_enemy_spawn := 2500 }) ∧
    (gC7.last_enemy_spawn ≠ 0 → 2000 < 2500 - gC7.last_enemy_spawn →
      (gC7.seed_spawn_timer 2500).spawn_step 2500 (1/2) (1/2) =
        { gC7 with
            enemies := gC7.enemies ++
              [{ x := (1/2) * (800 - 50), y := 0, width := 50, height := 50, speed := 2 + (1/2) * 3 }]
            last_enemy_spawn := 2500 }) ∧
    (0 ≤ (1/2 : ℚ) → (1/2 : ℚ) < 1 → 2 ≤ 2 + (1/2 : ℚ) * 3 ∧ 2 + (1/2 : ℚ) * 3 < 5)) :=
  ⟨rfl, C7_spawn gC7 2500 (1/2) (1/2) rfl⟩

/-- C8: on every tick the bullets each move up by their own speed and the
enemies each move down by their own speed, with `x` untouched; exactly the
bullets with `y < 0` and exactly the enemies with `y > 600` are then
dropped; and `render_frame` runs this motion-and-cull stage strictly after
the player movement and strictly before `check_collisions`, so no culled
entity reaches the collision sweeps. -/
theorem C8_motion_cull (g : Game) (t r1 r2 : ℚ) :
    (g.update_bullets).bullets =
      (g.bullets.map fun b => { b with y := b.y - b.speed }).filter (fun b => !decide (b.y < 0)) ∧
    (g.update_bullets).enemies = g.enemies ∧
    (g.update_enemies).enemies =
      (g.enemies.map fun e => { e with y := e.y + e.speed }).filter (fun e => !decide (600 < e.y)) ∧
    (g.update_enemies).bullets = g.bullets ∧
    g.render_frame t r1 r2 =
      ((((({ g.seed_spawn_timer t with
              last_frame_time := t }).spawn_step t r1 r2).move_player).update_bullets).update_enemies).check_collisions := by
  refine ⟨?_, rfl, ?_, rfl, rfl⟩
  · rw [Game.update_bullets]
    exact List.filter_congr fun b _ => by
      rw [Bool.eq_iff_iff, decide_eq_true_eq, Bool.not_eq_true', decide_eq_false_iff_not, not_lt]
  · rw [Game.update_enemies]
    exact List.filter_congr fun e _ => by
      rw [Bool.eq_iff_iff, decide_eq_true_eq, Bool.not_eq_true', decide_eq_false_iff_not, not_lt]

/-- `Vec::contains` on the held-key list agrees with list membership. -/
theorem keys_contains_iff (l : List String) (a : String) : l.contains a = true ↔ a ∈ l := by
  simp [List.contains]

/-- C9: `key_down` adds the key to the held set only when absent (an
already-held key leaves the set unchanged, and the set stays
duplicate-free); every `key_down` call with the fire key appends exactly
one bullet, and any other key appends none; `key_up` on an unheld key is a
no-op on the whole state, and on a held key (in a duplicate-free set)
removes it, keeping the set duplicate-free. -/
theorem C9_input (g : Game) (key : String) :
    (key ∈ g.keys_pressed → (g.key_down key).keys_pressed = g.keys_pressed) ∧
    (key ∉ g.keys_pressed → (g.key_down key).keys_pressed = g.keys_pressed ++ [key]) ∧
    (g.keys_pressed.Nodup → (g.key_down key).keys_pressed.Nodup) ∧
    ((key = " " ∨ key = "Space") → (g.key_down key).bullets =
      g.bullets ++
        [{ x := g.player.x + g.player.width / 2 - 5, y := g.player.y, radius := 5, speed := 7 }]) ∧
    (¬(key = " " ∨ key = "Space") → (g.key_down key).bullets = g.bullets) ∧
    (key ∉ g.keys_pressed → g.key_up key = g) ∧
    (g.keys_pressed.Nodup → key ∉ (g.key_up key).keys_pressed) ∧
    (g.keys_pressed.Nodup → (g.key_up key).keys_pressed.Nodup) := by
  have hk : (g.key_down key).keys_pressed =
      (if g.keys_pressed.contains key then g
       else { g with keys_pressed := g.keys_pressed ++ [key] }).keys_pressed := by
    rw [Game.key_down]
    split <;> rfl
  refine ⟨fun h => ?_, fun h => ?_, fun hnd => ?_, fun hf => ?_, fun hnf => ?_,
    fun h => ?_, fun hnd => ?_, fun hnd => ?_⟩
  · rw [hk, if_pos ((keys_contains_iff _ _).mpr h)]
  · rw [hk, if_neg (fun hc => h ((keys_contains_iff _ _).mp hc))]
  · rw [hk]
    split
    · exact hnd
    · next hc =>
      have h : key ∉ g.keys_pressed := fun hm => hc ((keys_contains_iff _ _).mpr hm)
      exact List.nodup_append.mpr
        ⟨hnd, List.nodup_singleton key, fun a ha hb => by
          rw [List.mem_singleton] at hb; subst hb; exact h ha⟩
  · rw [Game.key_down, if_pos hf]
    split <;> rfl
  · rw [Game.key_down, if_neg hnf]
    split <;> rfl
  · rw [Game.key_up, List.erase_of_not_mem h]
  · exact List.Nodup.not_mem_erase hnd
  · exact List.Nodup.erase key hnd

/-- Witness for C9 at the fresh state and the fire key. -/
theorem C9_witness :
    (" " ∉ Game.new.keys_pressed) ∧
    (Game.new.key_down " ").keys_pressed = Game.new.keys_pressed ++ [" "] ∧
    (Game.new.key_down " ").bullets =
      Game.new.bullets ++
        [{ x := Game.new.player.x + Game.new.player.width / 2 - 5, y := Game.new.player.y,
           radius := 5, speed := 7 }] ∧
    Game.new.key_up " " = Game.new :=
  ⟨by decide, (C9_input Game.new " ").2.1 (by decide),
    (C9_input Game.new " ").2.2.2.1 (Or.inl rfl),
    (C9_input Game.new " ").2.2.2.2.2.1 (by decide)⟩

set_option linter.unusedVariables false in
/-- C10: when both aliases of the left direction are held (and no
right-direction key is), the movement step moves the player left by the
single speed step 5, clamped at 0 — one step, not one per held alias. -/
theorem C10_alias_single_step (g : Game)
    (hl : "ArrowLeft" ∈ g.keys_pressed) (ha : "a" ∈ g.keys_pressed)
    (hr : "ArrowRight" ∉ g.keys_pressed) (hd : "d" ∉ g.keys_pressed)
    (hs : g.player.speed = 5) :
    g.move_player.player.x = (if g.player.x - 5 < 0 then 0 else g.player.x - 5) := by
  have h1 : (g.keys_pressed.contains "ArrowLeft" || g.keys_pressed.contains "a") = true := by
    rw [Bool.or_eq_true, keys_contains_iff]
    exact Or.inl hl
  have h2 : (g.keys_pressed.contains "ArrowRight" || g.keys_pressed.contains "d") = false := by
    rw [Bool.or_eq_false_iff]
    constructor
    · rw [Bool.eq_false_iff]; exact fun hc => hr ((keys_contains_iff _ _).mp hc)
    · rw [Bool.eq_false_iff]; exact fun hc => hd ((keys_contains_iff _ _).mp hc)
  simp only [Game.move_player, h1, h2, hs, if_true, Bool.false_eq_true, if_false]

/-- Both left aliases held at once on the fresh player position. -/
def gC10 : Game := { Game.new with keys_pressed := ["ArrowLeft", "a"] }

/-- Witness for C10 at the concrete state `gC10`. -/
theorem C10_witness :
    ("ArrowLeft" ∈ gC10.keys_pressed ∧ "a" ∈ gC10.keys_pressed ∧
      "ArrowRight" ∉ gC10.keys_pressed ∧ "d" ∉ gC10.keys_pressed ∧ gC10.player.speed = 5) ∧
    gC10.move_player.player.x = (if gC10.player.x - 5 < 0 then 0 else gC10.player.x - 5) :=
  ⟨⟨by decide, by decide, by decide, by decide, by decide⟩,
    C10_alias_single_step gC10 (by decide) (by decide) (by decide) (by decide) (by decide)⟩
